import Mathlib

/-!
Verification of the AITTA incident-triage core.

Shallow embedding of the triage orchestration pipeline
(src/services/agent.py) and of the tool client facade
(src/aitta_mcp/mcp_client_manager.py).  Python dictionaries with a
known key set are embedded as structures whose optional keys become
Option fields; raised exceptions become Except.error carrying the
exception message; each external tool call is replaced by an explicit
outcome parameter (ok with the parsed payload, or error with the
exception text, covering transport failure, timeout and parse failure
alike, exactly as the single try/except blocks of the source do).
-/

namespace AITTA

/-- Metadata map attached by the batch scanner to a synthesized alert
(the literal dict built in scan_and_create_alerts). -/
structure ScanMeta where
  scan_source : String
  error_count : Nat
  time_range : String
  error_messages : List String
deriving DecidableEq

/-- models.schemas.AlertData.  The timestamp is abstracted to an
integer epoch value; metadata is the scanner metadata when present. -/
structure AlertData where
  alert_id : String
  severity : String
  message : String
  host : String
  timestamp : Int
  metadata : Option ScanMeta
deriving DecidableEq

/-- models.schemas.TicketResponse (created_at, a wall-clock read,
is not modelled). -/
structure TicketResponse where
  ticket_id : String
  priority : String
  summary : String
  description : String
  assigned_to : String
  url : String
  processing_time : Int
deriving DecidableEq

/-- One AgentActivityRecord row as written by log_activity. -/
structure Activity where
  alert_id : String
  action : String
  detail : String
  status : String
deriving DecidableEq

/-- One log entry as consumed by the rule based analysis
(a dict accessed with .get on the keys timestamp and message). -/
structure LogEntry where
  timestamp : Option String
  message : Option String
deriving DecidableEq

/-- Parsed splunk query_logs response dict: keys logs and
results_count, both optional. -/
structure SplunkResp where
  logs : Option (List LogEntry)
  results_count : Option Nat
deriving DecidableEq

/-- Parsed CMDB get_asset_info response dict: all keys optional;
an absent key is none, the empty dict is all none. -/
structure CmdbDict where
  owner_team : Option String
  service : Option String
  criticality : Option String
  dependencies : List String
deriving DecidableEq

/-- The empty enrichment dict, the value kept when the CMDB call
fails. -/
def emptyCmdb : CmdbDict :=
  { owner_team := none, service := none, criticality := none, dependencies := [] }

/-- Character-list version of startswith, the base of substring
search. -/
def charsStartWith : List Char → List Char → Bool
  | [], _ => true
  | _ :: _, [] => false
  | a :: n, b :: h => a == b && charsStartWith n h

/-- Character-list version of substring membership. -/
def charsContain (needle : List Char) : List Char → Bool
  | [] => needle.isEmpty
  | b :: t => charsStartWith needle (b :: t) || charsContain needle t

/-- Python substring membership: needle in hay. -/
def containsSub (needle hay : String) : Bool :=
  charsContain needle.data hay.data

/-- Python str.lower restricted to the ASCII range the keyword rules
use. -/
def lowerStr (s : String) : String :=
  ⟨s.data.map Char.toLower⟩

/-- An analysis dict as produced by the analysis step.  Every
producer in the source (rule based analysis, the LLM fallback path
and the minimal fallback) sets priority, summary and description, so
those are plain fields; the remaining keys are optional. -/
structure AnalysisDict where
  priority : String
  summary : String
  description : String
  root_cause : Option String
  issue_type : Option String
  assigned_to : Option String
deriving DecidableEq

/-- A Python value returned by the inner analysis before the
isinstance dict check: either an analysis dict or some non-dict JSON
value. -/
inductive PyAnalysis where
  | dict (a : AnalysisDict)
  | nonDict
deriving DecidableEq

/-- Parsed jira create_ticket response dict: keys ticket_id and url,
both optional. -/
structure JiraDict where
  ticket_id : Option String
  url : Option String
deriving DecidableEq

/-- Parsed CMDB create_incident response dict. -/
structure SnowDict where
  incident_number : Option String
deriving DecidableEq

/-- models.database.TicketRecord as filled by save_ticket_record. -/
structure TicketRecord where
  ticket_id : String
  alert_id : String
  host : String
  severity : String
  priority : String
  summary : String
  description : String
  assigned_to : String
  processing_time : Int
  status : String
deriving DecidableEq

/-! ### Analysis strategies (agent.py lines 332-442) -/

/-- The priority dict literal of rule based analysis, keyed by the
pair (alert severity, asset criticality). -/
def priority_map : List ((String × String) × String) :=
  [ (("Critical", "High"), "Critical"),
    (("Critical", "Medium"), "High"),
    (("High", "High"), "High"),
    (("High", "Medium"), "Medium"),
    (("Medium", "High"), "Medium") ]

/-- _rule_based_analysis: deterministic analysis from the alert, the
retrieved logs and the enrichment dict. -/
def rule_based_analysis (alert : AlertData) (logs : List LogEntry) (cmdb : CmdbDict) :
    AnalysisDict :=
  let criticality := cmdb.criticality.getD "Medium"
  let priority := (priority_map.lookup (alert.severity, criticality)).getD "Medium"
  let summary := alert.severity ++ " Alert: " ++ alert.message.take 50 ++ " on " ++ alert.host
  let error_count :=
    (logs.filter (fun l => containsSub "error" (lowerStr (l.message.getD "")))).length
  let logLines :=
    String.intercalate "\n"
      ((logs.take 5).map (fun l =>
        "- [" ++ l.timestamp.getD "N/A" ++ "] " ++ (l.message.getD "No message").take 100))
  let description :=
    "\n        **Alert Details:**\n        - Host: " ++ alert.host ++
    "\n        - Service: " ++ cmdb.service.getD "Unknown" ++
    "\n        - Severity: " ++ alert.severity ++
    "\n        - Timestamp: " ++ toString alert.timestamp ++
    "\n\n        **Message:**\n        " ++ alert.message ++
    "\n\n        **Analysis:**\n        - " ++ toString error_count ++ " error entries found in logs" ++
    "\n        - Service criticality: " ++ criticality ++
    "\n        - Assigned priority: " ++ priority ++
    "\n\n        **Recent Log Entries:**\n        " ++ logLines ++
    "\n\n        **Recommended Actions:**\n        1. Investigate the root cause based on log patterns" ++
    "\n        2. Check service dependencies: " ++ String.intercalate ", " cmdb.dependencies ++
    "\n        3. Monitor for recurring patterns\n        "
  { priority := priority,
    root_cause := some ("Alert triggered: " ++ alert.message),
    summary := summary,
    description := description,
    issue_type := some "Task",
    assigned_to := none }

/-- _llm_analysis: the outcome parameter is the LLM provider call
followed by code-fence stripping and JSON parsing; error covers a
provider exception or a JSON parse exception, ok carries the parsed
value (a dict or not).  On error the method returns the rule based
analysis of the same inputs. -/
def llm_analysis (alert : AlertData) (logs : List LogEntry) (cmdb : CmdbDict)
    (outcome : Except String PyAnalysis) : PyAnalysis :=
  match outcome with
  | .ok v => v
  | .error _ => .dict (rule_based_analysis alert logs cmdb)

/-- The minimal fallback analysis built in the except branch of
_analyze_incident. -/
def fallback_analysis (alert : AlertData) : AnalysisDict :=
  { priority := alert.severity,
    summary := alert.severity ++ " alert on " ++ alert.host,
    description := alert.message,
    root_cause := none,
    issue_type := none,
    assigned_to := none }

/-- Exogenous LLM environment of one pipeline run: the LLM is not
configured, or the awaited LLM analysis timed out, or it completed
with the given provider-and-parse outcome. -/
inductive LlmEnv where
  | unavailable
  | timeout (msg : String)
  | completed (outcome : Except String PyAnalysis)

/-- The inner analysis of _analyze_incident: the rule based strategy
when no LLM is configured, otherwise the awaited LLM strategy, whose
only escaping exception is the timeout. -/
def analysis_inner (alert : AlertData) (logs : List LogEntry) (cmdb : CmdbDict)
    (llm : LlmEnv) : Except String PyAnalysis :=
  match llm with
  | .unavailable => .ok (.dict (rule_based_analysis alert logs cmdb))
  | .timeout m => .error m
  | .completed o => .ok (llm_analysis alert logs cmdb o)

/-- _analyze_incident: total (the except branch catches every
exception); returns the activity entries written and the analysis
dict used by the rest of the pipeline. -/
def analyze_incident (alert : AlertData) (inner : Except String PyAnalysis) :
    List Activity × AnalysisDict :=
  match inner with
  | .ok (.dict a) =>
      ([{ alert_id := alert.alert_id, action := "Analysis Complete",
          detail := "Priority: " ++ a.priority ++ ", Root cause identified",
          status := "complete" }], a)
  | .ok .nonDict => ([], fallback_analysis alert)
  | .error _ => ([], fallback_analysis alert)

/-! ### Pipeline steps (agent.py lines 62-330) -/

/-- _retrieve_logs: on success take the logs key (default empty) and
log completion; on any exception keep the empty list and log an error
activity. -/
def retrieve_logs (alert : AlertData) (resp : Except String SplunkResp) :
    List Activity × List LogEntry :=
  match resp with
  | .ok obj =>
      let logs := obj.logs.getD []
      ([{ alert_id := alert.alert_id, action := "Logs Retrieved",
          detail := "Found " ++ toString (obj.results_count.getD logs.length) ++
                    " relevant log entries from Splunk",
          status := "complete" }], logs)
  | .error e =>
      ([{ alert_id := alert.alert_id, action := "Logs Retrieval",
          detail := "Failed: " ++ e, status := "error" }], [])

/-- _enrich_with_cmdb: on success return the parsed dict, logging the
service and owner with their local defaults; on any exception the
enrichment dict stays empty. -/
def enrich_with_cmdb (alert : AlertData) (resp : Except String CmdbDict) :
    List Activity × CmdbDict :=
  match resp with
  | .ok d =>
      ([{ alert_id := alert.alert_id, action := "Context Enriched",
          detail := "Service: " ++ d.service.getD "DevOps Service" ++
                    ", Owner: " ++ d.owner_team.getD "DevOps",
          status := "complete" }], d)
  | .error e =>
      ([{ alert_id := alert.alert_id, action := "CMDB Query",
          detail := "Failed: " ++ e, status := "error" }], emptyCmdb)

/-- _create_jira_ticket: on success build the TicketResponse, filling
the ticket id with the project-key-XXXX placeholder and the url with
the empty string when the parsed response lacks them; on any
exception log an error activity and re-raise an HTTPException whose
detail names the underlying cause. -/
def create_jira_ticket (jiraProjectKey : String) (now : Int) (alert : AlertData)
    (analysis : AnalysisDict) (resp : Except String JiraDict) :
    List Activity × Except String TicketResponse :=
  match resp with
  | .ok d =>
      let ticket_id := d.ticket_id.getD (jiraProjectKey ++ "-XXXX")
      let ticket_url := d.url.getD ""
      let processing_time := now - alert.timestamp
      ([{ alert_id := alert.alert_id, action := "Ticket Created",
          detail := ticket_id ++ " assigned to " ++ analysis.assigned_to.getD "DevOps",
          status := "complete" }],
       .ok { ticket_id := ticket_id,
             priority := analysis.priority,
             summary := analysis.summary,
             description := analysis.description,
             assigned_to := analysis.assigned_to.getD "DevOps",
             url := ticket_url,
             processing_time := processing_time })
  | .error e =>
      ([{ alert_id := alert.alert_id, action := "Ticket Creation",
          detail := "Failed: " ++ e, status := "error" }],
       .error ("Failed to create ticket: " ++ e))

/-- _create_servicenow_incident: never raises; only writes an
activity entry either way. -/
def create_servicenow_incident (alert : AlertData) (resp : Except String SnowDict) :
    List Activity :=
  match resp with
  | .ok d =>
      [{ alert_id := alert.alert_id, action := "ServiceNow Incident Created",
         detail := "Incident " ++ d.incident_number.getD "SN-XXXX" ++
                   " created in ServiceNow",
         status := "complete" }]
  | .error e =>
      [{ alert_id := alert.alert_id, action := "ServiceNow Incident Creation",
         detail := "Failed: " ++ e, status := "error" }]

/-- _save_ticket_record: the row written to the tickets table. -/
def save_ticket_record (alert : AlertData) (analysis : AnalysisDict)
    (ticket : TicketResponse) : TicketRecord :=
  { ticket_id := ticket.ticket_id,
    alert_id := alert.alert_id,
    host := alert.host,
    severity := alert.severity,
    priority := analysis.priority,
    summary := analysis.summary,
    description := analysis.description,
    assigned_to := ticket.assigned_to,
    processing_time := ticket.processing_time,
    status := "created" }

/-- Exogenous outcomes of the tool calls made by one pipeline run:
each field is the parsed payload on success, or the text of the
exception (transport failure, timeout, no content, invalid JSON) on
failure. -/
structure PipelineEnv where
  splunk : Except String SplunkResp
  cmdb : Except String CmdbDict
  llm : LlmEnv
  jira : Except String JiraDict
  snow : Except String SnowDict

/-- Observable outcome of one process_alert run: the activity entries
written, the intermediate values each later step consumed, whether
the ServiceNow step ran, the persisted row if any, and the returned
ticket or the raised exception. -/
structure PipelineResult where
  activities : List Activity
  logsUsed : List LogEntry
  cmdbUsed : CmdbDict
  analysisUsed : AnalysisDict
  snowCalled : Bool
  ticketRecord : Option TicketRecord
  result : Except String TicketResponse

/-- process_alert: the fixed-order workflow of agent.py lines 62-100.
Steps 2-4 are total; step 5 may raise, in which case steps 6 and 7
are never reached and the exception propagates to the caller. -/
def process_alert (jiraProjectKey : String) (now : Int) (env : PipelineEnv)
    (alert : AlertData) : PipelineResult :=
  let a1 : List Activity :=
    [{ alert_id := alert.alert_id, action := "Alert Received",
       detail := alert.severity ++ " alert on " ++ alert.host ++ ": " ++ alert.message,
       status := "processing" }]
  let r2 := retrieve_logs alert env.splunk
  let r3 := enrich_with_cmdb alert env.cmdb
  let r4 := analyze_incident alert (analysis_inner alert r2.2 r3.2 env.llm)
  let r5 := create_jira_ticket jiraProjectKey now alert r4.2 env.jira
  let base := a1 ++ r2.1 ++ r3.1 ++ r4.1 ++ r5.1
  match r5.2 with
  | .error e =>
      { activities := base, logsUsed := r2.2, cmdbUsed := r3.2, analysisUsed := r4.2,
        snowCalled := false, ticketRecord := none, result := .error e }
  | .ok ticket =>
      { activities := base ++ create_servicenow_incident alert env.snow,
        logsUsed := r2.2, cmdbUsed := r3.2, analysisUsed := r4.2,
        snowCalled := true,
        ticketRecord := some (save_ticket_record alert r4.2 ticket),
        result := .ok ticket }

/-! ### Batch scanner (agent.py lines 444-580) -/

/-- One raw event of the splunk search_recent result; the fields
model event.get("host"), event.get("_raw") and event.get("_time"). -/
structure RawEvent where
  host : Option String
  raw : Option String
  time : Option String
deriving DecidableEq

/-- Per-host aggregate built while grouping error events. -/
structure HostAgg where
  host : String
  error_count : Nat
  messages : List String
  severity : String
  latest_timestamp : String
deriving DecidableEq

/-- Keywords escalating a host to Critical. -/
def critical_keywords : List String := ["critical", "fatal", "panic", "outage"]

/-- Keywords escalating a host to High. -/
def high_keywords : List String := ["high", "severe", "major"]

/-- any(keyword in raw_message.lower() for keyword in ks). -/
def matchesAny (ks : List String) (raw_message : String) : Bool :=
  ks.any (fun k => containsSub k (lowerStr raw_message))

/-- The initial aggregate inserted when a host is first seen; the
time is the first event's _time, defaulting to the current wall
clock. -/
def init_host (host : String) (tm : Option String) (now_iso : String) : HostAgg :=
  { host := host, error_count := 0, messages := [], severity := "Medium",
    latest_timestamp := tm.getD now_iso }

/-- The loop body applied to one event for its host: count it, append
the truncated message, then run the severity keyword rules (the
Critical rule, else the High rule, else leave the severity as is). -/
def apply_event (h : HostAgg) (raw_message : String) : HostAgg :=
  let h1 := { h with error_count := h.error_count + 1,
                     messages := h.messages ++ [raw_message.take 200] }
  if matchesAny critical_keywords raw_message then { h1 with severity := "Critical" }
  else if matchesAny high_keywords raw_message then { h1 with severity := "High" }
  else h1

/-- Update the value stored under a key of an insertion-ordered
association list (the embedding of a Python dict keyed by host). -/
def update_assoc (acc : List (String × HostAgg)) (host : String)
    (f : HostAgg → HostAgg) : List (String × HostAgg) :=
  match acc with
  | [] => []
  | (k, v) :: rest =>
      if k = host then (k, f v) :: rest else (k, v) :: update_assoc rest host f

/-- Fold one event into the affected_hosts dict. -/
def group_step (now_iso : String) (acc : List (String × HostAgg)) (ev : RawEvent) :
    List (String × HostAgg) :=
  let host := ev.host.getD "unknown"
  let raw_message := ev.raw.getD ""
  let acc1 :=
    if (acc.lookup host).isSome then acc
    else acc ++ [(host, init_host host ev.time now_iso)]
  update_assoc acc1 host (fun h => apply_event h raw_message)

/-- The grouping loop of scan_and_create_alerts (lines 473-494). -/
def group_events (now_iso : String) (events : List RawEvent) :
    List (String × HostAgg) :=
  events.foldl (group_step now_iso) []

/-- The argument dict of the search_recent tool call (lines 458-462):
the time_range sent is the literal 24h, not the method argument. -/
structure SearchArgs where
  search_term : String
  time_range : String
  max_results : Nat
deriving DecidableEq

/-- The search_recent arguments built by scan_and_create_alerts for a
given time_range argument. -/
def scan_search_args (time_range : String) : SearchArgs :=
  { search_term := "index=* (error OR exception OR failed OR fatal OR timeout) | head 1000 | table _time, host, source, _raw",
    time_range := "24h",
    max_results := 1000 }

/-- Parsed search_recent response dict; the results key. -/
structure SearchResp where
  results : List RawEvent
deriving DecidableEq

/-- The AlertData synthesized for one affected host (lines 502-516). -/
def mk_scan_alert (time_range : String) (now_ts : Int) (h : HostAgg) : AlertData :=
  { alert_id := "auto-scan-" ++ h.host ++ "-" ++ toString now_ts,
    severity := h.severity,
    message := "Multiple errors detected on " ++ h.host ++ ": " ++
               toString h.error_count ++ " errors in " ++ time_range ++
               ". Latest: " ++ (h.messages.getLastD "").take 100 ++ "...",
    host := h.host,
    timestamp := now_ts,
    metadata := some { scan_source := "splunk_auto_scan",
                       error_count := h.error_count,
                       time_range := time_range,
                       error_messages := h.messages.take 5 } }

/-- One entry of the processed_alerts list of the scan report. -/
structure ProcessedAlert where
  alert_id : String
  host : String
  severity : String
  error_count : Nat
  ticket : Option TicketResponse
  activity_log : List Activity
  status : String
  error : Option String
deriving DecidableEq

/-- The success-shaped scan report (lines 564-572). -/
structure ScanReport where
  scan_time_range : String
  total_error_events : Nat
  affected_hosts : Nat
  processed_alerts : Nat
  failed_alerts : Nat
  alerts : List ProcessedAlert
deriving DecidableEq

/-- Result of a scan: the completed report, or the failure dict of
lines 576-580 (status failed, the error text, and the time range). -/
inductive ScanResult where
  | completed (r : ScanReport)
  | failed (error : String) (scan_time_range : String)
deriving DecidableEq

/-- The scan_time_range field of either result shape. -/
def ScanResult.timeRangeField : ScanResult → String
  | .completed r => r.scan_time_range
  | .failed _ s => s

/-- Processing of one affected host (lines 499-562): synthesize the
alert, run it through the pipeline (abstracted by proc, which also
yields the activity-log rows read back from the database), and record
either a processed or a failed entry. -/
def scan_process_host (proc : AlertData → Except String (TicketResponse × List Activity))
    (time_range : String) (now_ts : Int) (h : HostAgg) : ProcessedAlert :=
  let alert := mk_scan_alert time_range now_ts h
  match proc alert with
  | .ok (t, acts) =>
      { alert_id := alert.alert_id, host := h.host, severity := h.severity,
        error_count := h.error_count, ticket := some t, activity_log := acts,
        status := "processed", error := none }
  | .error e =>
      { alert_id := alert.alert_id, host := h.host, severity := h.severity,
        error_count := h.error_count, ticket := none, activity_log := [],
        status := "failed", error := some e }

/-- scan_and_create_alerts: returns the search_recent argument dict
it sends together with the scan result built from the search outcome
and the per-host processing outcomes. -/
def scan_and_create_alerts (proc : AlertData → Except String (TicketResponse × List Activity))
    (now_iso : String) (now_ts : Int) (search : Except String SearchResp)
    (time_range : String) : SearchArgs × ScanResult :=
  let sent := scan_search_args time_range
  match search with
  | .error e => (sent, .failed e time_range)
  | .ok resp =>
      let error_events := resp.results
      let hosts := group_events now_iso error_events
      let processed := hosts.map (fun p => scan_process_host proc time_range now_ts p.2)
      (sent,
       .completed
         { scan_time_range := time_range,
           total_error_events := error_events.length,
           affected_hosts := hosts.length,
           processed_alerts := (processed.filter (fun a => a.status == "processed")).length,
           failed_alerts := (processed.filter (fun a => a.status == "failed")).length,
           alerts := processed })

/-! ### Tool client facade (mcp_client_manager.py) -/

/-- One entry of the content list of a tools/call response; the
fields model c.get("type") and c.get("text"). -/
structure ContentBlock where
  type : Option String
  text : Option String
deriving DecidableEq

/-- The result payload of a tools/call response. -/
structure ToolResult where
  content : List ContentBlock
deriving DecidableEq

/-- A received response envelope; result models
getattr(root, "result", empty dict). -/
structure ToolResp where
  result : Option ToolResult
deriving DecidableEq

/-- extract_text_content (lines 30-38): keep the entries whose type
is text; with none of them, return None; otherwise the text of the
first one, defaulting to the empty string. -/
def extract_text_content (resp : ToolResp) : Option String :=
  let content := (resp.result.map ToolResult.content).getD []
  let text_blocks := content.filter (fun c => c.type == some "text")
  match text_blocks with
  | [] => none
  | c :: _ => some (c.text.getD "")

/-- call_tool (lines 101-113): after the handshake and the tools/call
exchange deliver resp, the facade returns extract_text_content of it
verbatim. -/
def call_tool_result (resp : ToolResp) : Option String :=
  extract_text_content resp

/-- _parse_tool_response (agent.py lines 317-330) applied to a
facade return value: a falsy response (None or the empty string)
raises, otherwise the text is JSON-parsed (parseJson abstracts
json.loads restricted to the expected dict shape) and a parse failure
raises. -/
def parse_tool_response {α : Type} (parseJson : String → Option α)
    (response : Option String) : Except String α :=
  match response with
  | none => .error "Tool returned no content"
  | some s =>
      if s = "" then .error "Tool returned no content"
      else
        match parseJson s with
        | some d => .ok d
        | none => .error "Invalid JSON from tool"

/-! ### Derived predicates and concrete sample inputs -/

/-- Structural validity per the AnalysisResult entity of the data
model: a dict carrying priority, root cause, summary and description
(assignee and issue type stay optional).  In this embedding priority,
summary and description are total fields of AnalysisDict, so validity
reduces to being a dict whose root cause key is present. -/
def analysis_is_valid : PyAnalysis → Bool
  | .dict a => a.root_cause.isSome
  | .nonDict => false

/-- Scenario A alert: severity Critical on h1. -/
def alertA : AlertData :=
  { alert_id := "a1", severity := "Critical", message := "CPU at 99%",
    host := "h1", timestamp := 0, metadata := none }

/-- Scenario B alert: severity Medium on h2. -/
def alertB : AlertData :=
  { alert_id := "a2", severity := "Medium", message := "m",
    host := "h2", timestamp := 0, metadata := none }

/-- Enrichment dict with criticality High. -/
def cmdbHigh : CmdbDict :=
  { owner_team := none, service := none, criticality := some "High", dependencies := [] }

/-- Enrichment dict whose criticality makes no table pair. -/
def cmdbLED : CmdbDict :=
  { owner_team := none, service := none,
    criticality := some "Low-equivalent-default", dependencies := [] }

/-- A successful splunk payload with no log entries. -/
def splunkOk : SplunkResp := { logs := some [], results_count := some 0 }

/-- A successful jira payload carrying a ticket id and url. -/
def jiraOk : JiraDict := { ticket_id := some "OPS-1", url := some "http://jira/OPS-1" }

/-- A successful ServiceNow payload. -/
def snowOk : SnowDict := { incident_number := some "SN-1" }

/-- Environment in which only the jira call fails. -/
def envJiraFail : PipelineEnv :=
  { splunk := .ok splunkOk, cmdb := .ok cmdbHigh, llm := .unavailable,
    jira := .error "jira down", snow := .ok snowOk }

/-- Environment in which only the splunk call fails. -/
def envSplunkFail : PipelineEnv :=
  { splunk := .error "splunk down", cmdb := .ok cmdbHigh, llm := .unavailable,
    jira := .ok jiraOk, snow := .ok snowOk }

/-- Environment in which only the CMDB call fails. -/
def envCmdbFail : PipelineEnv :=
  { splunk := .ok splunkOk, cmdb := .error "cmdb down", llm := .unavailable,
    jira := .ok jiraOk, snow := .ok snowOk }

/-- Environment whose jira payload parses but lacks ticket_id and
url. -/
def envJiraNoId : PipelineEnv :=
  { splunk := .ok splunkOk, cmdb := .ok cmdbHigh, llm := .unavailable,
    jira := .ok { ticket_id := none, url := none }, snow := .ok snowOk }

/-! ## Theorems -/

/-- C2: for every alert and enrichment data, the rule based analysis
assigns priority by looking up the pair (alert severity, asset
criticality) in the fixed table, returning Medium for any pair not in
the table; severity Critical with criticality High yields Critical,
and severity Medium with a criticality absent from the table yields
Medium. -/
theorem c2_rule_based_priority_table (alert : AlertData) (logs : List LogEntry)
    (cmdb : CmdbDict) :
    (rule_based_analysis alert logs cmdb).priority
        = (priority_map.lookup (alert.severity, cmdb.criticality.getD "Medium")).getD "Medium"
    ∧ (priority_map.lookup (alert.severity, cmdb.criticality.getD "Medium") = none →
        (rule_based_analysis alert logs cmdb).priority = "Medium")
    ∧ (alert.severity = "Critical" → cmdb.criticality = some "High" →
        (rule_based_analysis alert logs cmdb).priority = "Critical")
    ∧ (alert.severity = "Medium" → cmdb.criticality = some "Low-equivalent-default" →
        (rule_based_analysis alert logs cmdb).priority = "Medium") := by
  have hp : (rule_based_analysis alert logs cmdb).priority
      = (priority_map.lookup (alert.severity, cmdb.criticality.getD "Medium")).getD "Medium" := rfl
  refine ⟨hp, ?_, ?_, ?_⟩
  · intro h
    rw [hp, h]
    rfl
  · intro h1 h2
    rw [hp, h1, h2]
    decide
  · intro h1 h2
    rw [hp, h1, h2]
    decide

/-- Witness for C2 at the concrete scenario inputs. -/
theorem c2_rule_based_priority_table_witness :
    (rule_based_analysis alertA [] cmdbHigh).priority = "Critical"
    ∧ (rule_based_analysis alertB [] cmdbLED).priority = "Medium"
    ∧ (rule_based_analysis alertB [] emptyCmdb).priority = "Medium" :=
  ⟨(c2_rule_based_priority_table alertA [] cmdbHigh).2.2.1 rfl rfl,
   (c2_rule_based_priority_table alertB [] cmdbLED).2.2.2 rfl rfl,
   (c2_rule_based_priority_table alertB [] emptyCmdb).2.1 (by decide)⟩

/-- C5: the analysis step is total (its return type carries no
exception), and on any internal failure, the timeout or a non-dict
result included, it returns the minimal fallback analysis whose
priority is the alert severity, whose summary is built from the
alert severity and host, and whose description is the alert
message. -/
theorem c5_analysis_never_raises (alert : AlertData)
    (inner : Except String PyAnalysis)
    (hfail : inner = .ok .nonDict ∨ ∃ e, inner = .error e) :
    (analyze_incident alert inner).2 = fallback_analysis alert
    ∧ (analyze_incident alert inner).2.priority = alert.severity
    ∧ (analyze_incident alert inner).2.summary
        = alert.severity ++ " alert on " ++ alert.host
    ∧ (analyze_incident alert inner).2.description = alert.message := by
  rcases hfail with h | ⟨e, h⟩ <;> subst h <;>
    exact ⟨rfl, rfl, rfl, rfl⟩

/-- Witness for C5 at a concrete failing analysis. -/
theorem c5_analysis_never_raises_witness :
    (analyze_incident alertA (.error "timed out")).2 = fallback_analysis alertA
    ∧ (analyze_incident alertA (.error "timed out")).2.priority = alertA.severity
    ∧ (analyze_incident alertA (.error "timed out")).2.summary
        = alertA.severity ++ " alert on " ++ alertA.host
    ∧ (analyze_incident alertA (.error "timed out")).2.description = alertA.message :=
  c5_analysis_never_raises alertA (.error "timed out") (Or.inr ⟨"timed out", rfl⟩)

/-- C6: when the LLM strategy yields unparsable text or the provider
errors, the analysis equals exactly what the rule based strategy
alone produces on the same inputs, and that value is structurally
valid per AnalysisResult. -/
theorem c6_llm_fallback_equals_rule_based (alert : AlertData) (logs : List LogEntry)
    (cmdb : CmdbDict) (e : String) :
    llm_analysis alert logs cmdb (.error e) = .dict (rule_based_analysis alert logs cmdb)
    ∧ analysis_is_valid (llm_analysis alert logs cmdb (.error e)) = true
    ∧ (analyze_incident alert
        (analysis_inner alert logs cmdb (.completed (.error e)))).2
        = rule_based_analysis alert logs cmdb :=
  ⟨rfl, rfl, rfl⟩

/-- C1: if the ticketing backend call fails (error or timeout),
process_alert raises to its caller, the ServiceNow step is not
executed and no ticket record is persisted. -/
theorem c1_ticket_failure_fatal (key : String) (now : Int) (env : PipelineEnv)
    (alert : AlertData) (e : String) (hj : env.jira = .error e) :
    (process_alert key now env alert).result
        = .error ("Failed to create ticket: " ++ e)
    ∧ (process_alert key now env alert).snowCalled = false
    ∧ (process_alert key now env alert).ticketRecord = none := by
  simp [process_alert, create_jira_ticket, hj]

/-- Witness for C1 at a concrete environment whose jira call fails. -/
theorem c1_ticket_failure_fatal_witness :
    (process_alert "OPS" 5 envJiraFail alertA).result
        = .error ("Failed to create ticket: " ++ "jira down")
    ∧ (process_alert "OPS" 5 envJiraFail alertA).snowCalled = false
    ∧ (process_alert "OPS" 5 envJiraFail alertA).ticketRecord = none :=
  c1_ticket_failure_fatal "OPS" 5 envJiraFail alertA "jira down" rfl

/-- C7: if the log retrieval call fails or times out, the pipeline
records an error activity entry, continues with the empty log set,
and still executes the ticket creation step (with the analysis
computed from the empty log set). -/
theorem c7_logs_failure_nonfatal (key : String) (now : Int) (env : PipelineEnv)
    (alert : AlertData) (e : String) (hs : env.splunk = .error e) :
    (process_alert key now env alert).logsUsed = []
    ∧ ({ alert_id := alert.alert_id, action := "Logs Retrieval",
         detail := "Failed: " ++ e, status := "error" } : Activity)
        ∈ (process_alert key now env alert).activities
    ∧ (process_alert key now env alert).result
        = (create_jira_ticket key now alert
            (analyze_incident alert
              (analysis_inner alert [] (enrich_with_cmdb alert env.cmdb).2 env.llm)).2
            env.jira).2 := by
  rcases hjira : env.jira with d | m <;>
    simp [process_alert, retrieve_logs, create_jira_ticket, hs, hjira]

/-- Witness for C7 at a concrete environment whose splunk call
fails. -/
theorem c7_logs_failure_nonfatal_witness :
    (process_alert "OPS" 5 envSplunkFail alertA).logsUsed = []
    ∧ ({ alert_id := alertA.alert_id, action := "Logs Retrieval",
         detail := "Failed: " ++ "splunk down", status := "error" } : Activity)
        ∈ (process_alert "OPS" 5 envSplunkFail alertA).activities
    ∧ (process_alert "OPS" 5 envSplunkFail alertA).result
        = (create_jira_ticket "OPS" 5 alertA
            (analyze_incident alertA
              (analysis_inner alertA []
                (enrich_with_cmdb alertA envSplunkFail.cmdb).2 envSplunkFail.llm)).2
            envSplunkFail.jira).2 :=
  c7_logs_failure_nonfatal "OPS" 5 envSplunkFail alertA "splunk down" rfl

/-- C8 counterexample: with a failing CMDB call the pipeline does
continue with empty enrichment data, but the owner it defaults to
downstream is DevOps, not unassigned-default-team: the resulting
ticket is assigned to DevOps. -/
theorem c8_counterexample :
    (process_alert "OPS" 5 envCmdbFail alertA).cmdbUsed = emptyCmdb
    ∧ ((process_alert "OPS" 5 envCmdbFail alertA).result.toOption.map
        TicketResponse.assigned_to) = some "DevOps"
    ∧ "DevOps" ≠ "unassigned-default-team" := by
  refine ⟨rfl, rfl, ?_⟩
  decide

/-- C8 amended: if the context enrichment call fails or times out,
the pipeline continues non-fatally with empty enrichment data,
records an error activity entry, still executes the ticket creation
step, and the owner defaulted to downstream (when the analysis names
no assignee) is DevOps. -/
theorem c8_cmdb_failure_nonfatal (key : String) (now : Int) (env : PipelineEnv)
    (alert : AlertData) (e : String) (hc : env.cmdb = .error e) :
    (process_alert key now env alert).cmdbUsed = emptyCmdb
    ∧ ({ alert_id := alert.alert_id, action := "CMDB Query",
         detail := "Failed: " ++ e, status := "error" } : Activity)
        ∈ (process_alert key now env alert).activities
    ∧ (process_alert key now env alert).result
        = (create_jira_ticket key now alert
            (analyze_incident alert
              (analysis_inner alert (retrieve_logs alert env.splunk).2 emptyCmdb env.llm)).2
            env.jira).2
    ∧ (∀ t, (process_alert key now env alert).result = .ok t →
        t.assigned_to
          = ((process_alert key now env alert).analysisUsed.assigned_to.getD "DevOps")) := by
  rcases hjira : env.jira with d | m <;>
    simp [process_alert, enrich_with_cmdb, create_jira_ticket, hc, hjira]

/-- Witness for C8 amended at a concrete environment whose CMDB call
fails. -/
theorem c8_cmdb_failure_nonfatal_witness :
    (process_alert "OPS" 5 envCmdbFail alertA).cmdbUsed = emptyCmdb
    ∧ ({ alert_id := alertA.alert_id, action := "CMDB Query",
         detail := "Failed: " ++ "cmdb down", status := "error" } : Activity)
        ∈ (process_alert "OPS" 5 envCmdbFail alertA).activities
    ∧ (process_alert "OPS" 5 envCmdbFail alertA).result
        = (create_jira_ticket "OPS" 5 alertA
            (analyze_incident alertA
              (analysis_inner alertA (retrieve_logs alertA envCmdbFail.splunk).2
                emptyCmdb envCmdbFail.llm)).2
            envCmdbFail.jira).2
    ∧ (∀ t, (process_alert "OPS" 5 envCmdbFail alertA).result = .ok t →
        t.assigned_to
          = ((process_alert "OPS" 5 envCmdbFail alertA).analysisUsed.assigned_to.getD
              "DevOps")) :=
  c8_cmdb_failure_nonfatal "OPS" 5 envCmdbFail alertA "cmdb down" rfl

/-- C10: a ticketing response that parses but carries no ticket_id is
a success: the pipeline returns a TicketResponse whose id is the
project-key-XXXX placeholder, whose url falls back to the empty
string, and the run still reaches the ServiceNow and persistence
steps. -/
theorem c10_missing_ticket_id_placeholder (key : String) (now : Int)
    (env : PipelineEnv) (alert : AlertData) (d : JiraDict)
    (hj : env.jira = .ok d) (hid : d.ticket_id = none) :
    ∃ t, (process_alert key now env alert).result = .ok t
      ∧ t.ticket_id = key ++ "-XXXX"
      ∧ t.url = d.url.getD ""
      ∧ (process_alert key now env alert).snowCalled = true
      ∧ (process_alert key now env alert).ticketRecord
          = some (save_ticket_record alert
              (process_alert key now env alert).analysisUsed t) := by
  simp only [process_alert, create_jira_ticket, hj, hid, Option.getD_none]
  refine ⟨_, rfl, ?_, ?_, ?_, ?_⟩ <;> simp

/-- Witness for C10 at a concrete environment whose jira payload
lacks a ticket id. -/
theorem c10_missing_ticket_id_placeholder_witness :
    ∃ t, (process_alert "OPS" 5 envJiraNoId alertA).result = .ok t
      ∧ t.ticket_id = "OPS" ++ "-XXXX"
      ∧ t.url = (JiraDict.mk none none).url.getD ""
      ∧ (process_alert "OPS" 5 envJiraNoId alertA).snowCalled = true
      ∧ (process_alert "OPS" 5 envJiraNoId alertA).ticketRecord
          = some (save_ticket_record alertA
              (process_alert "OPS" 5 envJiraNoId alertA).analysisUsed t) :=
  c10_missing_ticket_id_placeholder "OPS" 5 envJiraNoId alertA
    (JiraDict.mk none none) rfl rfl

/-- Applying one event whose message matches no severity rule leaves
every severity in the association list unchanged, hence Medium stays
Medium. -/
theorem update_assoc_medium (host : String) (f : HostAgg → HostAgg)
    (hf : ∀ h, (f h).severity = h.severity) :
    ∀ (acc : List (String × HostAgg)),
      (∀ p ∈ acc, p.2.severity = "Medium") →
      ∀ p ∈ update_assoc acc host f, p.2.severity = "Medium" := by
  intro acc
  induction acc with
  | nil => intro _ p hp; simp [update_assoc] at hp
  | cons kv rest ih =>
      intro hacc p hp
      obtain ⟨k, v⟩ := kv
      rw [update_assoc] at hp
      by_cases hk : k = host
      · rw [if_pos hk] at hp
        rcases List.mem_cons.mp hp with h | h
        · rw [h]
          rw [hf v]
          exact hacc (k, v) (List.mem_cons_self _ _)
        · exact hacc p (List.mem_cons_of_mem _ h)
      · rw [if_neg hk] at hp
        rcases List.mem_cons.mp hp with h | h
        · rw [h]
          exact hacc (k, v) (List.mem_cons_self _ _)
        · exact ih (fun q hq => hacc q (List.mem_cons_of_mem _ hq)) p h

/-- Folding one non-matching event keeps every host severity at
Medium. -/
theorem group_step_medium (now_iso : String) (acc : List (String × HostAgg))
    (ev : RawEvent)
    (hc : matchesAny critical_keywords (ev.raw.getD "") = false)
    (hh : matchesAny high_keywords (ev.raw.getD "") = false)
    (hacc : ∀ p ∈ acc, p.2.severity = "Medium") :
    ∀ p ∈ group_step now_iso acc ev, p.2.severity = "Medium" := by
  have hf : ∀ h, (apply_event h (ev.raw.getD "")).severity = h.severity := by
    intro h
    simp [apply_event, hc, hh]
  have hacc1 : ∀ p ∈ (if (acc.lookup (ev.host.getD "unknown")).isSome then acc
      else acc ++ [(ev.host.getD "unknown",
        init_host (ev.host.getD "unknown") ev.time now_iso)]),
      p.2.severity = "Medium" := by
    intro p hp
    by_cases hm : ((acc.lookup (ev.host.getD "unknown")).isSome : Bool) = true
    · rw [if_pos hm] at hp
      exact hacc p hp
    · rw [if_neg hm] at hp
      rcases List.mem_append.mp hp with h | h
      · exact hacc p h
      · rw [List.mem_singleton.mp h]
        rfl
  intro p hp
  simp only [group_step] at hp
  exact update_assoc_medium _ _ hf _ hacc1 p hp

/-- C3 counterexample: fold the two events fatal outage then major
glitch into host h1.  After the first event the host is Critical, yet
the second event, which matches only the High rule, lowers it to
High: the aggregate severity is not monotone in escalation order. -/
theorem c3_counterexample :
    ((group_events "t0" [⟨some "h1", some "fatal outage", some "t1"⟩]).lookup "h1").map
        HostAgg.severity = some "Critical"
    ∧ ((group_events "t0"
          [⟨some "h1", some "fatal outage", some "t1"⟩,
           ⟨some "h1", some "major glitch", some "t2"⟩]).lookup "h1").map
        HostAgg.severity = some "High" := by
  constructor <;> decide

/-- C3 amended: an event matching no severity rule never changes a
host severity (so in Scenario C a Critical host stays Critical after
a minor notice), and hosts none of whose events match a rule keep the
default Medium; however an event matching only the High rule resets
the severity to High even when it was Critical. -/
theorem c3_severity_fold :
    (∀ (h : HostAgg) (raw_message : String),
        matchesAny critical_keywords raw_message = false →
        matchesAny high_keywords raw_message = false →
        (apply_event h raw_message).severity = h.severity)
    ∧ ((group_events "t0"
          [⟨some "h1", some "fatal outage", some "t1"⟩,
           ⟨some "h1", some "minor notice", some "t2"⟩]).lookup "h1").map
        HostAgg.severity = some "Critical"
    ∧ (∀ (h : HostAgg) (raw_message : String),
        matchesAny critical_keywords raw_message = false →
        matchesAny high_keywords raw_message = true →
        (apply_event h raw_message).severity = "High")
    ∧ (∀ (now_iso : String) (events : List RawEvent),
        (∀ ev ∈ events,
          matchesAny critical_keywords (ev.raw.getD "") = false ∧
          matchesAny high_keywords (ev.raw.getD "") = false) →
        ∀ p ∈ group_events now_iso events, p.2.severity = "Medium") := by
  refine ⟨?_, by decide, ?_, ?_⟩
  · intro h raw_message hc hh
    simp [apply_event, hc, hh]
  · intro h raw_message hc hh
    simp [apply_event, hc, hh]
  · intro now_iso events hev
    have key : ∀ (evs : List RawEvent),
        (∀ ev ∈ evs,
          matchesAny critical_keywords (ev.raw.getD "") = false ∧
          matchesAny high_keywords (ev.raw.getD "") = false) →
        ∀ (acc : List (String × HostAgg)),
          (∀ p ∈ acc, p.2.severity = "Medium") →
          ∀ p ∈ evs.foldl (group_step now_iso) acc, p.2.severity = "Medium" := by
      intro evs
      induction evs with
      | nil => intro _ acc hacc p hp; exact hacc p hp
      | cons ev rest ih =>
          intro hev acc hacc
          rw [List.foldl_cons]
          refine ih (fun e he => hev e (List.mem_cons_of_mem _ he)) _ ?_
          exact group_step_medium now_iso acc ev
            (hev ev (List.mem_cons_self _ _)).1 (hev ev (List.mem_cons_self _ _)).2 hacc
    exact key events hev [] (by intro p hp; simp at hp)

/-- Witness for C3 amended at concrete events. -/
theorem c3_severity_fold_witness :
    (apply_event (init_host "h1" none "t0") "minor notice").severity
        = (init_host "h1" none "t0").severity
    ∧ (apply_event (init_host "h1" none "t0") "major glitch").severity = "High"
    ∧ (∀ p ∈ group_events "t0" [⟨some "h1", some "minor notice", none⟩],
        p.2.severity = "Medium") :=
  ⟨c3_severity_fold.1 (init_host "h1" none "t0") "minor notice"
      (by decide) (by decide),
   c3_severity_fold.2.2.1 (init_host "h1" none "t0") "major glitch"
      (by decide) (by decide),
   c3_severity_fold.2.2.2 "t0" [⟨some "h1", some "minor notice", none⟩]
      (by decide)⟩

/-- C9: the search request sent by the batch scan always carries the
fixed time range 24h whatever the time_range argument is (the
argument is not forwarded to the search); the argument shows up only
in the synthesized alert message and metadata and in the scan report
time range field, while every other field of the synthesized alert is
independent of it. -/
theorem c9_scan_time_range_fixed
    (proc : AlertData → Except String (TicketResponse × List Activity))
    (now_iso : String) (now_ts : Int) (search : Except String SearchResp)
    (tr tr2 : String) :
    (scan_and_create_alerts proc now_iso now_ts search tr).1.time_range = "24h"
    ∧ (scan_and_create_alerts proc now_iso now_ts search tr).1
        = (scan_and_create_alerts proc now_iso now_ts search tr2).1
    ∧ (scan_and_create_alerts proc now_iso now_ts search tr).2.timeRangeField = tr
    ∧ ∀ (h : HostAgg),
        (mk_scan_alert tr now_ts h).alert_id = (mk_scan_alert tr2 now_ts h).alert_id
        ∧ (mk_scan_alert tr now_ts h).severity = (mk_scan_alert tr2 now_ts h).severity
        ∧ (mk_scan_alert tr now_ts h).host = (mk_scan_alert tr2 now_ts h).host
        ∧ (mk_scan_alert tr now_ts h).timestamp = (mk_scan_alert tr2 now_ts h).timestamp
        ∧ ((mk_scan_alert tr now_ts h).metadata.map ScanMeta.time_range) = some tr := by
  refine ⟨?_, ?_, ?_, ?_⟩
  · cases search <;> rfl
  · cases search <;> rfl
  · cases search <;> rfl
  · intro h
    exact ⟨rfl, rfl, rfl, rfl, rfl⟩

/-- C4 counterexample: a callTool response whose content list holds
only an image block makes the facade return None; no error of any
kind is raised at the facade. -/
theorem c4_counterexample :
    call_tool_result
      { result := some { content := [{ type := some "image", text := none }] } }
      = none := rfl

/-- C4 amended: on a response with no text content block the facade
returns None silently, and the failure only surfaces downstream,
where parsing the tool response raises on the missing content. -/
theorem c4_no_text_returns_none (resp : ToolResp)
    (h : ((resp.result.map ToolResult.content).getD []).filter
          (fun c => c.type == some "text") = []) :
    call_tool_result resp = none
    ∧ ∀ (α : Type) (parseJson : String → Option α),
        parse_tool_response parseJson (call_tool_result resp)
          = .error "Tool returned no content" := by
  have h1 : call_tool_result resp = none := by
    rw [call_tool_result, extract_text_content]
    simp only [h]
  refine ⟨h1, ?_⟩
  intro α parseJson
  rw [h1]
  rfl

/-- Witness for C4 amended at the image-only response. -/
theorem c4_no_text_returns_none_witness :
    call_tool_result
        { result := some { content := [{ type := some "image", text := none }] } }
        = none
    ∧ parse_tool_response (fun _ => (none : Option SplunkResp))
        (call_tool_result
          { result := some { content := [{ type := some "image", text := none }] } })
        = .error "Tool returned no content" :=
  ⟨(c4_no_text_returns_none
      { result := some { content := [{ type := some "image", text := none }] } }
      (by decide)).1,
   (c4_no_text_returns_none
      { result := some { content := [{ type := some "image", text := none }] } }
      (by decide)).2 SplunkResp (fun _ => none)⟩

end AITTA
